import Mathlib

/-!
Verification development for the op-succinct host/client utilities.

This file gives a shallow embedding of two source files:

* `utils/client/src/boot.rs` — the rollup-config canonicalizer and hasher
  (`hash_rollup_config`), the `BootInfoStruct` public-input aggregate and the
  `From<BootInfo>` conversion;
* `utils/host/src/host.rs` — the `OPSuccinctHost::run` orchestration loop.

Machine integers are modelled as `Nat` with explicit bounds where overflow or
fixed widths matter.  Rust `Option` becomes Lean `Option`; fallible steps in
the orchestration loop are modelled by an explicit outcome record and an
`Except` result.  Strings produced by the canonicalizer are built exactly as
`serde_json::to_string_pretty` prints the `serde_json::json!` value constructed
in the source (two-space indentation, keys in construction order, `null` for
absent options).
-/

namespace OPSuccinct

/-! ## Lowercase hexadecimal rendering (Rust `format!` semantics) -/

/-- One lowercase hexadecimal digit character for a value below 16
(`0`–`9` then `a`–`f`), as Rust `{:x}` renders a single digit. -/
def hexDigit (n : Nat) : Char :=
  if n < 10 then Char.ofNat (48 + n) else Char.ofNat (87 + n)

/-- Digit extraction with an explicit fuel argument (structural recursion on
the fuel, which strictly dominates the number of digits). -/
def hexDigitsAux : Nat → Nat → List Char
  | 0, _ => []
  | fuel + 1, n =>
    if n < 16 then [hexDigit n]
    else hexDigitsAux fuel (n / 16) ++ [hexDigit (n % 16)]

/-- Minimal lowercase hexadecimal representation of a natural number, most
significant digit first, as Rust `{:x}` prints an unsigned integer (zero
prints as the single digit `0`).  The fuel `n + 1` always suffices because
each recursive step divides the value by 16. -/
def hexDigits (n : Nat) : List Char := hexDigitsAux (n + 1) n

/-- Rust `{:0wx}`: the minimal hex digits of `n`, zero-padded on the left to a
minimum width `w` (wider values print in full). -/
def padHex (w n : Nat) : String :=
  ⟨List.replicate (w - (hexDigits n).length) '0' ++ hexDigits n⟩

/-- Rendering of a 32-byte hash value by `format!("0x{:x}", h)`:
`alloy_primitives::FixedBytes<32>`'s `LowerHex` prints every byte, i.e. the
value zero-padded to 64 hex digits. -/
def renderB256 (h : Nat) : String := "0x" ++ padHex 64 h

/-- Rendering of a 20-byte address by `format!("0x{:x}", a)`:
`alloy_primitives::Address` delegates to `FixedBytes<20>`'s `LowerHex`, which
prints every byte, i.e. the value zero-padded to 40 hex digits. -/
def renderAddress (a : Nat) : String := "0x" ++ padHex 40 a

/-- Rendering of a `U256` by `format!("0x{:064x}", v)` (used for the
`overhead` and `scalar` system-config fields). -/
def renderU256Padded (v : Nat) : String := "0x" ++ padHex 64 v

/-- The EIP-1559 parameter pack from `boot.rs`:
`(denominator as u64) | ((elasticity as u64) << 8)`.  Both inputs are `u32`
values, so the 64-bit `|` cannot overflow and is plain `Nat.lor`. -/
def packEip1559 (d e : Nat) : Nat := Nat.lor d (e <<< 8)

/-- The operator-fee parameter pack from `boot.rs`:
`(scalar as u128) | ((constant as u128) << 64)`.  `scalar` is `u32` and
`constant` is `u64`, so the 128-bit `|` cannot overflow. -/
def packOperatorFee (s k : Nat) : Nat := Nat.lor s (k <<< 64)

/-- `format!("0x{:016x}", pack)` for the EIP-1559 pack, with absent
sub-values defaulted to 0 by `unwrap_or(0)` before packing. -/
def renderEip1559Params (d e : Option Nat) : String :=
  "0x" ++ padHex 16 (packEip1559 (d.getD 0) (e.getD 0))

/-- `format!("0x{:064x}", pack)` for the operator-fee pack, with absent
sub-values defaulted to 0 by `unwrap_or(0)` before packing. -/
def renderOperatorFeeParams (s k : Option Nat) : String :=
  "0x" ++ padHex 64 (packOperatorFee (s.getD 0) (k.getD 0))

/-! ## The rollup-config data model

Field names follow the Rust types (`kona`/`celo` config structs) as read by
`hash_rollup_config`; integer fields are `Nat` values of the corresponding
Rust unsigned types. -/

/-- An L1/L2 genesis block reference: `genesis.l1` / `genesis.l2`. -/
structure BlockNumHash where
  hash : Nat
  number : Nat
deriving DecidableEq

/-- The optional legacy system-config snapshot (`genesis.system_config`). -/
structure SystemConfig where
  batcher_address : Nat
  overhead : Nat
  scalar : Nat
  gas_limit : Nat
  eip1559_denominator : Option Nat
  eip1559_elasticity : Option Nat
  operator_fee_scalar : Option Nat
  operator_fee_constant : Option Nat
deriving DecidableEq

/-- The genesis anchor of a rollup config. -/
structure ChainGenesis where
  l1 : BlockNumHash
  l2 : BlockNumHash
  l2_time : Nat
  system_config : Option SystemConfig
deriving DecidableEq

/-- The OP hard-fork activation timestamps read by `hash_rollup_config`. -/
structure HardForkConfig where
  regolith_time : Option Nat
  canyon_time : Option Nat
  delta_time : Option Nat
  ecotone_time : Option Nat
  fjord_time : Option Nat
  granite_time : Option Nat
  holocene_time : Option Nat
  isthmus_time : Option Nat
deriving DecidableEq

/-- The `chain_op_config` sub-object. -/
structure ChainOpConfig where
  eip1559_elasticity : Nat
  eip1559_denominator : Nat
  eip1559_denominator_canyon : Nat
deriving DecidableEq

/-- The optional alternative-DA sub-configuration (`alt_da`). -/
structure AltDAConfig where
  da_challenge_address : Option Nat
  da_commitment_type : Option String
  da_challenge_window : Option Nat
  da_resolve_window : Option Nat
deriving DecidableEq

/-- The OP rollup configuration, restricted to the fields
`hash_rollup_config` reads. -/
structure RollupConfig where
  genesis : ChainGenesis
  block_time : Nat
  max_sequencer_drift : Nat
  seq_window_size : Nat
  channel_timeout : Nat
  l1_chain_id : Nat
  l2_chain_id : Nat
  hardforks : HardForkConfig
  batch_inbox_address : Nat
  deposit_contract_address : Nat
  l1_system_config_address : Nat
  protocol_versions_address : Nat
  chain_op_config : ChainOpConfig
  alt_da_config : Option AltDAConfig
deriving DecidableEq

/-- The Celo hard-fork config: the OP hard forks plus `cel2_time`. -/
structure CeloHardForkConfig where
  op_hardfork_config : HardForkConfig
  cel2_time : Option Nat
deriving DecidableEq

/-- `CeloRollupConfig`: the OP rollup config wrapped with the Celo hard-fork
config.  Note that `hash_rollup_config` reads hard-fork timestamps from
`op_rollup_config.hardforks`, never from the outer `hardforks` field. -/
structure CeloRollupConfig where
  op_rollup_config : RollupConfig
  hardforks : CeloHardForkConfig
deriving DecidableEq

/-! ## The canonical serialization

`hash_rollup_config` builds a `serde_json::json!` value field by field and
prints it with `serde_json::to_string_pretty`.  The functions below produce
that exact text: two-space indentation per nesting level, `"key": value`
items separated by `,\n`, object keys in the order the source constructs
them, and `null` for an absent `Option`.  Literal braces are written with
their character codes. -/

/-- serde_json's escaping of a character inside a JSON string literal. -/
def escapeJsonChar (c : Char) : List Char :=
  if c = '"' then ['\\', '"']
  else if c = '\\' then ['\\', '\\']
  else if c = Char.ofNat 8 then ['\\', 'b']
  else if c = Char.ofNat 9 then ['\\', 't']
  else if c = Char.ofNat 10 then ['\\', 'n']
  else if c = Char.ofNat 12 then ['\\', 'f']
  else if c = Char.ofNat 13 then ['\\', 'r']
  else if c.toNat < 32 then
    ['\\', 'u', '0', '0', hexDigit (c.toNat / 16), hexDigit (c.toNat % 16)]
  else [c]

/-- A JSON string literal with serde_json's escaping. -/
def jsonString (s : String) : String :=
  "\"" ++ (⟨s.data.foldr (fun c acc => escapeJsonChar c ++ acc) []⟩ : String) ++ "\""

/-- An optional JSON number: `null` when absent. -/
def jsonOptNat : Option Nat → String
  | none => "null"
  | some n => toString n

/-- An optional JSON string: `null` when absent. -/
def jsonOptStr : Option String → String
  | none => "null"
  | some s => jsonString s

/-- `alt_da.da_challenge_address.map(|addr| format!("0x{addr:x}"))`:
`null` when absent, else the address as a JSON string. -/
def jsonOptAddr : Option Nat → String
  | none => "null"
  | some a => "\"" ++ renderAddress a ++ "\""

/-- The pretty-printed `genesis.system_config` object (keys at indentation 6,
closing brace at indentation 4), in source construction order. -/
def renderSystemConfig (sc : SystemConfig) : String :=
  "\x7b\n      \"batcherAddr\": \"" ++ renderAddress sc.batcher_address ++
  "\",\n      \"overhead\": \"" ++ renderU256Padded sc.overhead ++
  "\",\n      \"scalar\": \"" ++ renderU256Padded sc.scalar ++
  "\",\n      \"gasLimit\": " ++ toString sc.gas_limit ++
  ",\n      \"eip1559Params\": \"" ++
    renderEip1559Params sc.eip1559_denominator sc.eip1559_elasticity ++
  "\",\n      \"operatorFeeParams\": \"" ++
    renderOperatorFeeParams sc.operator_fee_scalar sc.operator_fee_constant ++
  "\"\n    \x7d"

/-- The value of the `"system_config"` key: explicit `null` when the option
is empty, never an omitted key. -/
def renderOptSystemConfig : Option SystemConfig → String
  | none => "null"
  | some sc => renderSystemConfig sc

/-- The pretty-printed `alt_da` object (keys at indentation 4, closing brace
at indentation 2), in source construction order. -/
def renderAltDA (ad : AltDAConfig) : String :=
  "\x7b\n    \"da_challenge_contract_address\": " ++
    jsonOptAddr ad.da_challenge_address ++
  ",\n    \"da_commitment_type\": " ++ jsonOptStr ad.da_commitment_type ++
  ",\n    \"da_challenge_window\": " ++ jsonOptNat ad.da_challenge_window ++
  ",\n    \"da_resolve_window\": " ++ jsonOptNat ad.da_resolve_window ++
  "\n  \x7d"

/-- The value of the `"alt_da"` key: explicit `null` when the option is
empty, never an omitted key. -/
def renderOptAltDA : Option AltDAConfig → String
  | none => "null"
  | some ad => renderAltDA ad

/-- The canonical text from the opening brace up to (but not including) the
`"system_config"` key inside the `genesis` object. -/
def configPartA (c : CeloRollupConfig) : String :=
  "\x7b\n  \"genesis\": \x7b\n    \"l1\": \x7b\n      \"hash\": \"" ++
    renderB256 c.op_rollup_config.genesis.l1.hash ++
  "\",\n      \"number\": " ++ toString c.op_rollup_config.genesis.l1.number ++
  "\n    \x7d,\n    \"l2\": \x7b\n      \"hash\": \"" ++
    renderB256 c.op_rollup_config.genesis.l2.hash ++
  "\",\n      \"number\": " ++ toString c.op_rollup_config.genesis.l2.number ++
  "\n    \x7d,\n    \"l2_time\": " ++ toString c.op_rollup_config.genesis.l2_time ++
  ",\n    "

/-- The canonical text between the `system_config` value and the `"alt_da"`
key: the remaining top-level scalar fields (hard-fork timestamps defaulted to
0 by `unwrap_or(0)`), addresses, and the `chain_op_config` object. -/
def configPartB (c : CeloRollupConfig) : String :=
  "\n  \x7d,\n  \"block_time\": " ++ toString c.op_rollup_config.block_time ++
  ",\n  \"max_sequencer_drift\": " ++ toString c.op_rollup_config.max_sequencer_drift ++
  ",\n  \"seq_window_size\": " ++ toString c.op_rollup_config.seq_window_size ++
  ",\n  \"channel_timeout\": " ++ toString c.op_rollup_config.channel_timeout ++
  ",\n  \"l1_chain_id\": " ++ toString c.op_rollup_config.l1_chain_id ++
  ",\n  \"l2_chain_id\": " ++ toString c.op_rollup_config.l2_chain_id ++
  ",\n  \"regolith_time\": " ++ toString (c.op_rollup_config.hardforks.regolith_time.getD 0) ++
  ",\n  \"canyon_time\": " ++ toString (c.op_rollup_config.hardforks.canyon_time.getD 0) ++
  ",\n  \"delta_time\": " ++ toString (c.op_rollup_config.hardforks.delta_time.getD 0) ++
  ",\n  \"ecotone_time\": " ++ toString (c.op_rollup_config.hardforks.ecotone_time.getD 0) ++
  ",\n  \"fjord_time\": " ++ toString (c.op_rollup_config.hardforks.fjord_time.getD 0) ++
  ",\n  \"granite_time\": " ++ toString (c.op_rollup_config.hardforks.granite_time.getD 0) ++
  ",\n  \"holocene_time\": " ++ toString (c.op_rollup_config.hardforks.holocene_time.getD 0) ++
  ",\n  \"isthmus_time\": " ++ toString (c.op_rollup_config.hardforks.isthmus_time.getD 0) ++
  ",\n  \"batch_inbox_address\": \"" ++ renderAddress c.op_rollup_config.batch_inbox_address ++
  "\",\n  \"deposit_contract_address\": \"" ++ renderAddress c.op_rollup_config.deposit_contract_address ++
  "\",\n  \"l1_system_config_address\": \"" ++ renderAddress c.op_rollup_config.l1_system_config_address ++
  "\",\n  \"protocol_versions_address\": \"" ++ renderAddress c.op_rollup_config.protocol_versions_address ++
  "\",\n  \"chain_op_config\": \x7b\n    \"eip1559Elasticity\": " ++
    toString c.op_rollup_config.chain_op_config.eip1559_elasticity ++
  ",\n    \"eip1559Denominator\": " ++
    toString c.op_rollup_config.chain_op_config.eip1559_denominator ++
  ",\n    \"eip1559DenominatorCanyon\": " ++
    toString c.op_rollup_config.chain_op_config.eip1559_denominator_canyon ++
  "\n  \x7d,\n  "

/-- The canonical serialization built by `hash_rollup_config`: the pretty
JSON text of the manually constructed config value.  `cel2_time` is left out
of the text (the source line is commented out), and the hard-fork timestamps
come from `op_rollup_config.hardforks`. -/
def serializedConfig (c : CeloRollupConfig) : String :=
  configPartA c ++
  ("\"system_config\": " ++ renderOptSystemConfig c.op_rollup_config.genesis.system_config) ++
  configPartB c ++
  ("\"alt_da\": " ++ renderOptAltDA c.op_rollup_config.alt_da_config) ++
  "\n\x7d"

/-! ## SHA-256

A byte-level embedding of the `sha2::Sha256` digest used by
`hash_rollup_config`.  Words are `Nat` values kept below `2^32` by explicit
reduction; bytes are `Nat` values below 256. -/

/-- Big-endian byte rendering of `n` in exactly `k` bytes (the low `8*k` bits
of `n`). -/
def natToBytesBE : Nat → Nat → List Nat
  | 0, _ => []
  | k + 1, n => natToBytesBE k (n / 256) ++ [n % 256]

/-- The big-endian value of a byte list (how a `B256` relates to its bytes). -/
def bytesToNatBE (l : List Nat) : Nat :=
  l.foldl (fun a b => a * 256 + b) 0

/-- Reduction to a 32-bit word. -/
def w32 (n : Nat) : Nat := n % 4294967296

/-- 32-bit modular addition. -/
def add32 (a b : Nat) : Nat := (a + b) % 4294967296

/-- 32-bit right rotation of a word `n < 2^32`. -/
def rotr32 (n s : Nat) : Nat := Nat.lor (n >>> s) (w32 (n <<< (32 - s)))

/-- 32-bit bitwise complement. -/
def not32 (n : Nat) : Nat := Nat.xor n 4294967295

/-- SHA-256 `Ch(e,f,g)`. -/
def shaCh (e f g : Nat) : Nat := Nat.xor (Nat.land e f) (Nat.land (not32 e) g)

/-- SHA-256 `Maj(a,b,c)`. -/
def shaMaj (a b c : Nat) : Nat :=
  Nat.xor (Nat.xor (Nat.land a b) (Nat.land a c)) (Nat.land b c)

/-- SHA-256 `Σ0`. -/
def bigSigma0 (x : Nat) : Nat :=
  Nat.xor (Nat.xor (rotr32 x 2) (rotr32 x 13)) (rotr32 x 22)

/-- SHA-256 `Σ1`. -/
def bigSigma1 (x : Nat) : Nat :=
  Nat.xor (Nat.xor (rotr32 x 6) (rotr32 x 11)) (rotr32 x 25)

/-- SHA-256 `σ0`. -/
def smallSigma0 (x : Nat) : Nat :=
  Nat.xor (Nat.xor (rotr32 x 7) (rotr32 x 18)) (x >>> 3)

/-- SHA-256 `σ1`. -/
def smallSigma1 (x : Nat) : Nat :=
  Nat.xor (Nat.xor (rotr32 x 17) (rotr32 x 19)) (x >>> 10)

/-- The 64 SHA-256 round constants (decimal). -/
def shaK : List Nat :=
  [1116352408, 1899447441, 3049323471, 3921009573, 961987163,
   1508970993, 2453635748, 2870763221, 3624381080, 310598401,
   607225278, 1426881987, 1925078388, 2162078206, 2614888103,
   3248222580, 3835390401, 4022224774, 264347078, 604807628,
   770255983, 1249150122, 1555081692, 1996064986, 2554220882,
   2821834349, 2952996808, 3210313671, 3336571891, 3584528711,
   113926993, 338241895, 666307205, 773529912, 1294757372,
   1396182291, 1695183700, 1986661051, 2177026350, 2456956037,
   2730485921, 2820302411, 3259730800, 3345764771, 3516065817,
   3600352804, 4094571909, 275423344, 430227734, 506948616,
   659060556, 883997877, 958139571, 1322822218, 1537002063,
   1747873779, 1955562222, 2024104815, 2227730452, 2361852424,
   2428436474, 2756734187, 3204031479, 3329325298]

/-- The SHA-256 hash state: eight 32-bit words. -/
structure Sha256State where
  h0 : Nat
  h1 : Nat
  h2 : Nat
  h3 : Nat
  h4 : Nat
  h5 : Nat
  h6 : Nat
  h7 : Nat
deriving DecidableEq

/-- The SHA-256 initial hash state (decimal). -/
def shaInit : Sha256State :=
  ⟨1779033703, 3144134277, 1013904242, 2773480762,
   1359893119, 2600822924, 528734635, 1541459225⟩

/-- SHA-256 message padding: append `0x80`, zero bytes to 56 mod 64, then the
bit length as 8 big-endian bytes. -/
def sha256pad (msg : List Nat) : List Nat :=
  msg ++ [128] ++ List.replicate ((64 - (msg.length + 9) % 64) % 64) 0 ++
    natToBytesBE 8 (8 * msg.length)

/-- Group bytes into big-endian 32-bit words. -/
def bytesToWords : List Nat → List Nat
  | b0 :: b1 :: b2 :: b3 :: rest =>
      (((b0 * 256 + b1) * 256 + b2) * 256 + b3) :: bytesToWords rest
  | _ => []

/-- Split a word list into 16-word blocks. -/
def toBlocks : List Nat → List (List Nat)
  | [] => []
  | w :: rest => ((w :: rest).take 16) :: toBlocks ((w :: rest).drop 16)
termination_by ws => ws.length
decreasing_by
  simp only [List.length_drop, List.length_cons]
  omega

/-- The next word of the SHA-256 message schedule, computed from the words
produced so far. -/
def scheduleStep (acc : List Nat) : Nat :=
  let i := acc.length
  add32 (add32 (smallSigma1 (acc.getD (i - 2) 0)) (acc.getD (i - 7) 0))
    (add32 (smallSigma0 (acc.getD (i - 15) 0)) (acc.getD (i - 16) 0))

/-- Extend a 16-word block to the 64-word message schedule. -/
def extendSchedule (ws : List Nat) : List Nat :=
  (List.range 48).foldl (fun acc _ => acc ++ [scheduleStep acc]) ws

/-- One SHA-256 compression round; `kw` is the round constant plus the
schedule word. -/
def shaRound (st : Sha256State) (kw : Nat) : Sha256State :=
  let t1 := add32 (add32 st.h7 (bigSigma1 st.h4))
    (add32 (shaCh st.h4 st.h5 st.h6) kw)
  let t2 := add32 (bigSigma0 st.h0) (shaMaj st.h0 st.h1 st.h2)
  ⟨add32 t1 t2, st.h0, st.h1, st.h2, add32 st.h3 t1, st.h4, st.h5, st.h6⟩

/-- SHA-256 compression of one 16-word block into the running state. -/
def compressBlock (hs : Sha256State) (block : List Nat) : Sha256State :=
  let ws := extendSchedule block
  let st := (shaK.zip ws).foldl (fun st kw => shaRound st (add32 kw.1 kw.2)) hs
  ⟨add32 hs.h0 st.h0, add32 hs.h1 st.h1, add32 hs.h2 st.h2, add32 hs.h3 st.h3,
   add32 hs.h4 st.h4, add32 hs.h5 st.h5, add32 hs.h6 st.h6, add32 hs.h7 st.h7⟩

/-- The SHA-256 digest of a byte string, as a list of 32 bytes. -/
def sha256 (msg : List Nat) : List Nat :=
  let st := (toBlocks (bytesToWords (sha256pad msg))).foldl compressBlock shaInit
  natToBytesBE 4 st.h0 ++ natToBytesBE 4 st.h1 ++ natToBytesBE 4 st.h2 ++
  natToBytesBE 4 st.h3 ++ natToBytesBE 4 st.h4 ++ natToBytesBE 4 st.h5 ++
  natToBytesBE 4 st.h6 ++ natToBytesBE 4 st.h7

/-- UTF-8 encoding of one Unicode code point. -/
def charUtf8 (n : Nat) : List Nat :=
  if n < 128 then [n]
  else if n < 2048 then [192 + n / 64, 128 + n % 64]
  else if n < 65536 then [224 + n / 4096, 128 + (n / 64) % 64, 128 + n % 64]
  else [240 + n / 262144, 128 + (n / 4096) % 64, 128 + (n / 64) % 64, 128 + n % 64]

/-- The UTF-8 bytes of a string (`str::as_bytes`). -/
def strBytes (s : String) : List Nat :=
  s.data.foldr (fun c acc => charUtf8 c.toNat ++ acc) []

/-- `hash_rollup_config`: SHA-256 of the canonical serialization's bytes,
returned as the 32 bytes of a `B256`. -/
def hash_rollup_config (config : CeloRollupConfig) : List Nat :=
  sha256 (strBytes (serializedConfig config))

/-! ## Boot info and the public-input aggregate -/

/-- `AGGREGATION_OUTPUTS_SIZE`: the source constant `6 * 32`, documented as
the ABI-encoded size of `AggregationOutputs`. -/
def AGGREGATION_OUTPUTS_SIZE : Nat := 6 * 32

/-- The fields of `kona_proof::BootInfo` used by the conversion to
`BootInfoStruct`.  Hash-like values are `Nat` values below `2^256`; the block
number is a `u64` value. -/
structure BootInfo where
  l1_head : Nat
  agreed_l2_output_root : Nat
  claimed_l2_output_root : Nat
  claimed_l2_block_number : Nat
  rollup_config : RollupConfig
deriving DecidableEq

/-- The Solidity struct `BootInfoStruct`:
`bytes32 l1Head; bytes32 l2PreRoot; bytes32 l2PostRoot; uint64 l2BlockNumber;
bytes32 rollupConfigHash`. -/
structure BootInfoStruct where
  l1Head : Nat
  l2PreRoot : Nat
  l2PostRoot : Nat
  l2BlockNumber : Nat
  rollupConfigHash : Nat
deriving DecidableEq

/-- The `CeloRollupConfig` built by `From<BootInfo> for BootInfoStruct`: the
boot info's rollup config wrapped with its own hard forks and
`cel2_time: Some(0)`. -/
def celoConfigOfBootInfo (b : BootInfo) : CeloRollupConfig :=
  { op_rollup_config := b.rollup_config
    hardforks :=
      { op_hardfork_config := b.rollup_config.hardforks
        cel2_time := some 0 } }

/-- The `From<BootInfo> for BootInfoStruct` conversion. -/
def bootInfoStructOf (b : BootInfo) : BootInfoStruct :=
  { l1Head := b.l1_head
    l2PreRoot := b.agreed_l2_output_root
    l2PostRoot := b.claimed_l2_output_root
    l2BlockNumber := b.claimed_l2_block_number
    rollupConfigHash := bytesToNatBE (hash_rollup_config (celoConfigOfBootInfo b)) }

/-- Solidity ABI encoding of `BootInfoStruct`: five statically-sized fields,
each encoded as one 32-byte word (`bytes32` as-is, `uint64` right-aligned and
zero-padded on the left), concatenated in declaration order. -/
def abiEncodeBootInfoStruct (b : BootInfoStruct) : List Nat :=
  natToBytesBE 32 b.l1Head ++ natToBytesBE 32 b.l2PreRoot ++
  natToBytesBE 32 b.l2PostRoot ++ natToBytesBE 32 b.l2BlockNumber ++
  natToBytesBE 32 b.rollupConfigHash

/-! ## The orchestration loop (`OPSuccinctHost::run`)

`run` executes a straight-line sequence of fallible steps.  Each step's
success or failure is an input (`RunOutcome`); the model records the result
propagated to the caller, whether the server task was aborted before
returning, and the ordered trace of operations that executed. -/

/-- The operations `run` can perform, in source order: allocate the preimage
channel pair, allocate the hint channel pair, start the server task, run the
witness generator, abort the server task. -/
inductive HostEvent where
  | allocPreimageChannel
  | allocHintChannel
  | startServerTask
  | runWitnessGenerator
  | abortServerTask
deriving DecidableEq, BEq

/-- Which fallible step of `run` fails, if any. -/
inductive RunError where
  | channelSetup
  | serverStart
  | witnessGen
deriving DecidableEq

/-- The environment's outcome for each fallible step of one `run`
invocation. -/
structure RunOutcome where
  preimageChannelOk : Bool
  hintChannelOk : Bool
  serverStartOk : Bool
  witnessOk : Bool
deriving DecidableEq

/-- The observable result of one `run` invocation. -/
structure RunResult where
  result : Except RunError Unit
  serverAborted : Bool
  events : List HostEvent

/-- `OPSuccinctHost::run`: allocate both channel pairs, start the server
task, run the witness generator, abort the server task, return the witness.
Each `?` in the source propagates a failure immediately, executing no later
step; in particular a witness-generation failure returns before the
`server_task.abort()` line runs. -/
def hostRun (o : RunOutcome) : RunResult :=
  if !o.preimageChannelOk then
    ⟨.error .channelSetup, false, [.allocPreimageChannel]⟩
  else if !o.hintChannelOk then
    ⟨.error .channelSetup, false, [.allocPreimageChannel, .allocHintChannel]⟩
  else if !o.serverStartOk then
    ⟨.error .serverStart, false,
      [.allocPreimageChannel, .allocHintChannel, .startServerTask]⟩
  else if !o.witnessOk then
    ⟨.error .witnessGen, false,
      [.allocPreimageChannel, .allocHintChannel, .startServerTask,
       .runWitnessGenerator]⟩
  else
    ⟨.ok (), true,
      [.allocPreimageChannel, .allocHintChannel, .startServerTask,
       .runWitnessGenerator, .abortServerTask]⟩

/-- The full trace of a successful `run`. -/
def fullRunTrace : List HostEvent :=
  [.allocPreimageChannel, .allocHintChannel, .startServerTask,
   .runWitnessGenerator, .abortServerTask]

/-! ## Auxiliary definitions for the statements -/

/-- A lowercase hexadecimal digit character: `0`–`9` or `a`–`f`. -/
def isLowerHexDigit (c : Char) : Bool :=
  (48 ≤ c.toNat && c.toNat ≤ 57) || (97 ≤ c.toNat && c.toNat ≤ 102)

/-- Replace the OP hard-fork config inside the OP rollup config. -/
def withOpHardForks (c : CeloRollupConfig) (hf : HardForkConfig) : CeloRollupConfig :=
  { c with op_rollup_config := { c.op_rollup_config with hardforks := hf } }

/-- Replace the Celo `cel2_time` hard-fork timestamp. -/
def withCel2Time (c : CeloRollupConfig) (t : Option Nat) : CeloRollupConfig :=
  { c with hardforks := { c.hardforks with cel2_time := t } }

/-- Replace the optional `genesis.system_config` sub-object. -/
def withSystemConfig (c : CeloRollupConfig) (sc : Option SystemConfig) : CeloRollupConfig :=
  { c with op_rollup_config :=
    { c.op_rollup_config with genesis :=
      { c.op_rollup_config.genesis with system_config := sc } } }

/-- Replace the optional `alt_da` sub-configuration. -/
def withAltDA (c : CeloRollupConfig) (ad : Option AltDAConfig) : CeloRollupConfig :=
  { c with op_rollup_config := { c.op_rollup_config with alt_da_config := ad } }

/-- A concrete rollup config used to instantiate hypotheses in witnesses. -/
def exampleConfig : CeloRollupConfig :=
  { op_rollup_config :=
    { genesis := ⟨⟨0, 0⟩, ⟨0, 0⟩, 0, none⟩
      block_time := 2
      max_sequencer_drift := 600
      seq_window_size := 3600
      channel_timeout := 300
      l1_chain_id := 1
      l2_chain_id := 10
      hardforks := ⟨some 0, none, none, none, none, none, none, none⟩
      batch_inbox_address := 0
      deposit_contract_address := 0
      l1_system_config_address := 0
      protocol_versions_address := 0
      chain_op_config := ⟨6, 50, 250⟩
      alt_da_config := none }
    hardforks := ⟨⟨some 0, none, none, none, none, none, none, none⟩, some 0⟩ }

/-! ## General lemmas -/

theorem natToBytesBE_length (k : Nat) : ∀ n, (natToBytesBE k n).length = k := by
  induction k with
  | zero => intro n; rfl
  | succ k ih => intro n; simp [natToBytesBE, ih]

theorem natToBytesBE_zero (k : Nat) : natToBytesBE k 0 = List.replicate k 0 := by
  induction k with
  | zero => rfl
  | succ k ih =>
    show natToBytesBE k (0 / 256) ++ [0 % 256] = _
    rw [Nat.zero_div, ih]
    simp [List.replicate_succ', Nat.zero_mod]

theorem natToBytesBE_add (a b : Nat) : ∀ n,
    natToBytesBE (a + b) n = natToBytesBE a (n / 256 ^ b) ++ natToBytesBE b n := by
  induction b with
  | zero => intro n; simp [natToBytesBE]
  | succ b ih =>
    intro n
    show natToBytesBE ((a + b) + 1) n = _
    calc natToBytesBE ((a + b) + 1) n
        = natToBytesBE (a + b) (n / 256) ++ [n % 256] := rfl
      _ = (natToBytesBE a (n / 256 / 256 ^ b) ++ natToBytesBE b (n / 256)) ++ [n % 256] := by
          rw [ih]
      _ = natToBytesBE a (n / 256 / 256 ^ b) ++ (natToBytesBE b (n / 256) ++ [n % 256]) := by
          rw [List.append_assoc]
      _ = natToBytesBE a (n / 256 ^ (b + 1)) ++ natToBytesBE (b + 1) n := by
          rw [Nat.div_div_eq_div_mul, ← pow_succ']
          rfl

theorem natToBytesBE_of_lt (n : Nat) (h : n < 2 ^ 64) :
    natToBytesBE 32 n = List.replicate 24 0 ++ natToBytesBE 8 n := by
  have h8 : (256 : Nat) ^ 8 = 2 ^ 64 := by norm_num
  have hdiv : n / 256 ^ 8 = 0 := Nat.div_eq_of_lt (by omega)
  have := natToBytesBE_add 24 8 n
  rw [hdiv, natToBytesBE_zero] at this
  exact this

theorem hexDigitsAux_congr (f1 : Nat) : ∀ f2 n, n < f1 → n < f2 →
    hexDigitsAux f1 n = hexDigitsAux f2 n := by
  induction f1 with
  | zero => intro f2 n h _; omega
  | succ f1 ih =>
    intro f2 n h1 h2
    cases f2 with
    | zero => omega
    | succ f2 =>
      show (if n < 16 then _ else _) = (if n < 16 then _ else _)
      by_cases h16 : n < 16
      · simp [h16]
      · have hd : n / 16 < n := Nat.div_lt_self (by omega) (by omega)
        simp only [h16, if_false]
        rw [ih f2 (n / 16) (by omega) (by omega)]

theorem hexDigitsAux_eq_hexDigits (f n : Nat) (h : n < f) :
    hexDigitsAux f n = hexDigits n :=
  hexDigitsAux_congr f (n + 1) n h (by omega)

theorem hexDigitsAux_length_le (f : Nat) : ∀ n w, n < f → n < 16 ^ w → 1 ≤ w →
    (hexDigitsAux f n).length ≤ w := by
  induction f with
  | zero => intro n w h _ _; omega
  | succ f ih =>
    intro n w hf hw hw1
    show (if n < 16 then [hexDigit n] else _).length ≤ w
    by_cases h16 : n < 16
    · simpa [h16] using hw1
    · simp only [h16, if_false, List.length_append, List.length_cons,
        List.length_nil]
      obtain ⟨w, rfl⟩ : ∃ w2, w = w2 + 1 := ⟨w - 1, by omega⟩
      have hd : n / 16 < n := Nat.div_lt_self (by omega) (by omega)
      cases w with
      | zero =>
        rw [pow_one] at hw
        omega
      | succ w =>
        have hdb : n / 16 < 16 ^ (w + 1) := by
          rw [Nat.div_lt_iff_lt_mul (by omega)]
          calc n < 16 ^ (w + 1 + 1) := hw
            _ = 16 ^ (w + 1) * 16 := by rw [pow_succ]
        have := ih (n / 16) (w + 1) (by omega) hdb (by omega)
        omega

theorem hexDigits_length_le (n w : Nat) (hw : n < 16 ^ w) (h1 : 1 ≤ w) :
    (hexDigits n).length ≤ w :=
  hexDigitsAux_length_le (n + 1) n w (by omega) hw h1

theorem padHex_length (w n : Nat) (hn : n < 16 ^ w) (hw : 1 ≤ w) :
    (padHex w n).length = w := by
  have h := hexDigits_length_le n w hn hw
  simp only [padHex, String.length_mk, List.length_append, List.length_replicate]
  omega

theorem hexDigit_isLowerHex (n : Nat) (h : n < 16) :
    isLowerHexDigit (hexDigit n) = true := by
  interval_cases n <;> decide

theorem hexDigitsAux_all_hex (f : Nat) : ∀ n, n < f →
    (hexDigitsAux f n).all isLowerHexDigit = true := by
  induction f with
  | zero => intro n h; omega
  | succ f ih =>
    intro n hf
    show (if n < 16 then [hexDigit n] else _).all isLowerHexDigit = true
    by_cases h16 : n < 16
    · simp [h16, hexDigit_isLowerHex n h16]
    · have hd : n / 16 < n := Nat.div_lt_self (by omega) (by omega)
      simp only [h16, if_false, List.all_append, List.all_cons, List.all_nil,
        Bool.and_true, Bool.and_eq_true]
      exact ⟨ih (n / 16) (by omega),
        hexDigit_isLowerHex (n % 16) (Nat.mod_lt n (by omega))⟩

theorem padHex_all_hex (w n : Nat) :
    (padHex w n).data.all isLowerHexDigit = true := by
  show (List.replicate (w - (hexDigits n).length) '0' ++ hexDigits n).all
    isLowerHexDigit = true
  simp only [List.all_append, Bool.and_eq_true]
  constructor
  · have hz : ∀ k, (List.replicate k '0').all isLowerHexDigit = true := by
      intro k
      induction k with
      | zero => rfl
      | succ k ih => simp only [List.replicate_succ, List.all_cons, ih]; decide
    exact hz _
  · exact hexDigitsAux_all_hex (n + 1) n (by omega)

theorem sha256_length (msg : List Nat) : (sha256 msg).length = 32 := by
  simp [sha256, natToBytesBE_length]

/-! ## The claims -/

/-- Claim C1 counterexample: when the witness generator fails after a
successful server start, `run` propagates the error without the server task
having been aborted — the `?` on the witness-generation call returns before
the `server_task.abort()` line, so cancellation does not happen on every exit
path from the witness-generation step. -/
theorem claim_C1_counterexample :
    (hostRun ⟨true, true, true, false⟩).serverAborted = false ∧
    (hostRun ⟨true, true, true, false⟩).result = .error .witnessGen ∧
    (hostRun ⟨true, true, true, false⟩).events =
      [.allocPreimageChannel, .allocHintChannel, .startServerTask,
       .runWitnessGenerator] := by
  exact ⟨rfl, rfl, rfl⟩

/-- Claim C1 (amended): in every `run` invocation the server task is aborted
before `run` returns exactly when every step, including witness generation,
succeeds; on the success path the abort happens after witness generation and
before the witness is returned, but when the witness generator fails the
error propagates without the server task being aborted. -/
theorem claim_C1 :
    (∀ o : RunOutcome,
      (hostRun o).serverAborted =
        (o.preimageChannelOk && o.hintChannelOk && o.serverStartOk &&
          o.witnessOk)) ∧
    (hostRun ⟨true, true, true, true⟩).events = fullRunTrace ∧
    (hostRun ⟨true, true, true, true⟩).result = .ok () := by
  refine ⟨fun o => ?_, rfl, rfl⟩
  rcases o with ⟨p, h, s, w⟩
  cases p <;> cases h <;> cases s <;> cases w <;> rfl

/-- Claim C8: the steps of `run` occur in strict order — every trace is a
prefix of channel allocation (preimage then hint), server start, witness
run, abort; a channel-allocation failure returns a setup error before any
task has started (no server-start and no witness event in the trace), and a
server-start failure returns before any witness work begins. -/
theorem claim_C8 :
    (∀ o : RunOutcome, List.isPrefixOf (hostRun o).events fullRunTrace = true) ∧
    (∀ h s w, hostRun ⟨false, h, s, w⟩ =
      ⟨.error .channelSetup, false, [.allocPreimageChannel]⟩) ∧
    (∀ s w, hostRun ⟨true, false, s, w⟩ =
      ⟨.error .channelSetup, false, [.allocPreimageChannel, .allocHintChannel]⟩) ∧
    (∀ w, hostRun ⟨true, true, false, w⟩ =
      ⟨.error .serverStart, false,
        [.allocPreimageChannel, .allocHintChannel, .startServerTask]⟩) := by
  refine ⟨fun o => ?_, fun h s w => rfl, fun s w => rfl, fun w => rfl⟩
  rcases o with ⟨p, h, s, w⟩
  cases p <;> cases h <;> cases s <;> cases w <;> decide

set_option maxRecDepth 4000 in
/-- Claim C2 counterexample: the ABI encoding of `BootInfoStruct` — five
static fields of one 32-byte word each — is 160 bytes long, not 192; the
`6 * 32` constant `AGGREGATION_OUTPUTS_SIZE` describes a different struct
(`AggregationOutputs`), so the boot-commitment structure does not linearize
to 192 bytes. -/
theorem claim_C2_counterexample :
    (abiEncodeBootInfoStruct ⟨0, 0, 0, 0, 0⟩).length = 160 ∧
    (abiEncodeBootInfoStruct ⟨0, 0, 0, 0, 0⟩).length ≠ AGGREGATION_OUTPUTS_SIZE := by
  constructor <;> decide

/-- Claim C2 (amended): the assembled boot-commitment structure ABI-encodes
to exactly 160 bytes, i.e. 5 32-byte words, in the order: L1 head, L2
pre-state output root, L2 post-state output root, L2 block number
(right-aligned in its 32-byte word: first 24 bytes zero, low 8 bytes the
block number big-endian), config digest. -/
theorem claim_C2 (b : BootInfoStruct) (hb : b.l2BlockNumber < 2 ^ 64) :
    (abiEncodeBootInfoStruct b).length = 160 ∧
    abiEncodeBootInfoStruct b =
      natToBytesBE 32 b.l1Head ++ natToBytesBE 32 b.l2PreRoot ++
      natToBytesBE 32 b.l2PostRoot ++
      (List.replicate 24 0 ++ natToBytesBE 8 b.l2BlockNumber) ++
      natToBytesBE 32 b.rollupConfigHash := by
  constructor
  · simp [abiEncodeBootInfoStruct, natToBytesBE_length]
  · rw [abiEncodeBootInfoStruct, natToBytesBE_of_lt b.l2BlockNumber hb]

/-- Witness for claim C2 at a concrete struct. -/
theorem claim_C2_witness :
    (abiEncodeBootInfoStruct ⟨1, 2, 3, 4, 5⟩).length = 160 ∧
    abiEncodeBootInfoStruct ⟨1, 2, 3, 4, 5⟩ =
      natToBytesBE 32 1 ++ natToBytesBE 32 2 ++ natToBytesBE 32 3 ++
      (List.replicate 24 0 ++ natToBytesBE 8 4) ++ natToBytesBE 32 5 :=
  claim_C2 ⟨1, 2, 3, 4, 5⟩ (by decide)

set_option maxRecDepth 4000 in
/-- Claim C3 counterexample: addresses do not render with minimal hex digits;
`format!("0x{:x}")` on an `Address` prints all 20 bytes, so the zero address
renders as `0x` followed by 40 zeros rather than the minimal `0x0`. -/
theorem claim_C3_counterexample :
    renderAddress 0 = "0x0000000000000000000000000000000000000000" ∧
    renderAddress 0 ≠ "0x0" ∧ (renderAddress 0).length = 42 := by
  refine ⟨?_, ?_, ?_⟩ <;> decide

/-- Claim C3 (amended): 256-bit hash-like values render as `0x` plus exactly
64 lowercase hex digits; addresses render as `0x` plus exactly 40 lowercase
hex digits (fixed width, not minimal); the 64-bit packed field renders as
`0x` plus exactly 16 hex digits and the 128-bit packed field as `0x` plus
exactly 64 hex digits. -/
theorem claim_C3 (h a v d e s k : Nat) (hh : h < 2 ^ 256) (ha : a < 2 ^ 160)
    (hv : v < 2 ^ 256) (hd : d < 2 ^ 32) (he : e < 2 ^ 32) (hs : s < 2 ^ 32)
    (hk : k < 2 ^ 64) :
    (renderB256 h).length = 66 ∧
    (padHex 64 h).data.all isLowerHexDigit = true ∧
    (renderAddress a).length = 42 ∧
    (padHex 40 a).data.all isLowerHexDigit = true ∧
    (renderU256Padded v).length = 66 ∧
    (renderEip1559Params (some d) (some e)).length = 18 ∧
    (renderOperatorFeeParams (some s) (some k)).length = 66 := by
  have h256 : (16 : Nat) ^ 64 = 2 ^ 256 := by norm_num
  have h160 : (16 : Nat) ^ 40 = 2 ^ 160 := by norm_num
  have h64 : (16 : Nat) ^ 16 = 2 ^ 64 := by norm_num
  have hpack1 : packEip1559 d e < 2 ^ 64 := by
    have h1 : d < 2 ^ 64 := lt_of_lt_of_le hd (by norm_num)
    have h2 : e <<< 8 < 2 ^ 64 := by
      rw [Nat.shiftLeft_eq, show (2 : Nat) ^ 8 = 256 from by norm_num]
      omega
    exact Nat.bitwise_lt_two_pow h1 h2
  have hpack2 : packOperatorFee s k < 2 ^ 256 := by
    have h1 : s < 2 ^ 128 := lt_of_lt_of_le hs (by norm_num)
    have h2 : k <<< 64 < 2 ^ 128 := by
      rw [Nat.shiftLeft_eq,
        show (2 : Nat) ^ 64 = 18446744073709551616 from by norm_num]
      have : (2 : Nat) ^ 128 = 340282366920938463463374607431768211456 := by norm_num
      omega
    have hlt : Nat.lor s (k <<< 64) < 2 ^ 128 := Nat.bitwise_lt_two_pow h1 h2
    exact lt_of_lt_of_le hlt (by norm_num)
  refine ⟨?_, padHex_all_hex 64 h, ?_, padHex_all_hex 40 a, ?_, ?_, ?_⟩
  · rw [renderB256, String.length_append,
      padHex_length 64 h (by omega) (by norm_num)]
    decide
  · rw [renderAddress, String.length_append,
      padHex_length 40 a (by omega) (by norm_num)]
    decide
  · rw [renderU256Padded, String.length_append,
      padHex_length 64 v (by omega) (by norm_num)]
    decide
  · rw [renderEip1559Params]
    simp only [Option.getD_some]
    rw [String.length_append, padHex_length 16 _ (by omega) (by norm_num)]
    decide
  · rw [renderOperatorFeeParams]
    simp only [Option.getD_some]
    rw [String.length_append, padHex_length 64 _ (by omega) (by norm_num)]
    decide

/-- Witness for claim C3 at concrete values. -/
theorem claim_C3_witness :
    (renderB256 0).length = 66 ∧
    (padHex 64 0).data.all isLowerHexDigit = true ∧
    (renderAddress 0).length = 42 ∧
    (padHex 40 0).data.all isLowerHexDigit = true ∧
    (renderU256Padded 0).length = 66 ∧
    (renderEip1559Params (some 0) (some 0)).length = 18 ∧
    (renderOperatorFeeParams (some 0) (some 0)).length = 66 :=
  claim_C3 0 0 0 0 0 0 0 (by norm_num) (by norm_num) (by norm_num)
    (by norm_num) (by norm_num) (by norm_num) (by norm_num)

set_option maxRecDepth 4000 in
/-- Claim C4: the EIP-1559 packed field equals `denominator | (elasticity
<< 8)` and the operator-fee packed field equals `scalar | (constant << 64)`,
with absent sub-values replaced by 0 before packing; denominator=5,
elasticity=2 renders as `0x0000000000000205`, and scalar=7, constant=3
yields a rendering whose low 16 hex digits are `0000000000000007` and whose
next 16 hex digits are `0000000000000003`. -/
theorem claim_C4 :
    (∀ d e : Nat, packEip1559 d e = Nat.lor d (e <<< 8)) ∧
    (∀ s k : Nat, packOperatorFee s k = Nat.lor s (k <<< 64)) ∧
    renderEip1559Params none none = "0x" ++ padHex 16 (packEip1559 0 0) ∧
    renderOperatorFeeParams none none = "0x" ++ padHex 64 (packOperatorFee 0 0) ∧
    renderEip1559Params (some 5) (some 2) = "0x0000000000000205" ∧
    renderOperatorFeeParams (some 7) (some 3) =
      "0x0000000000000000000000000000000000000000000000030000000000000007" ∧
    ((renderOperatorFeeParams (some 7) (some 3)).data.drop 50).take 16 =
      "0000000000000007".data ∧
    ((renderOperatorFeeParams (some 7) (some 3)).data.drop 34).take 16 =
      "0000000000000003".data := by
  refine ⟨fun d e => rfl, fun s k => rfl, rfl, rfl, ?_, ?_, ?_, ?_⟩ <;> decide

/-- Claim C5: for every config, setting a hard-fork activation timestamp
explicitly to zero and leaving it absent yield identical canonical
serializations and hence equal config digests — every absent hard-fork
timestamp canonicalizes as the value 0 (and the excluded `cel2_time` never
affects the text at all). -/
theorem claim_C5 (c : CeloRollupConfig) (hf : HardForkConfig) :
    (serializedConfig (withOpHardForks c { hf with regolith_time := some 0 }) =
       serializedConfig (withOpHardForks c { hf with regolith_time := none }) ∧
     hash_rollup_config (withOpHardForks c { hf with regolith_time := some 0 }) =
       hash_rollup_config (withOpHardForks c { hf with regolith_time := none })) ∧
    (serializedConfig (withOpHardForks c { hf with canyon_time := some 0 }) =
       serializedConfig (withOpHardForks c { hf with canyon_time := none }) ∧
     hash_rollup_config (withOpHardForks c { hf with canyon_time := some 0 }) =
       hash_rollup_config (withOpHardForks c { hf with canyon_time := none })) ∧
    (serializedConfig (withOpHardForks c { hf with delta_time := some 0 }) =
       serializedConfig (withOpHardForks c { hf with delta_time := none }) ∧
     hash_rollup_config (withOpHardForks c { hf with delta_time := some 0 }) =
       hash_rollup_config (withOpHardForks c { hf with delta_time := none })) ∧
    (serializedConfig (withOpHardForks c { hf with ecotone_time := some 0 }) =
       serializedConfig (withOpHardForks c { hf with ecotone_time := none }) ∧
     hash_rollup_config (withOpHardForks c { hf with ecotone_time := some 0 }) =
       hash_rollup_config (withOpHardForks c { hf with ecotone_time := none })) ∧
    (serializedConfig (withOpHardForks c { hf with fjord_time := some 0 }) =
       serializedConfig (withOpHardForks c { hf with fjord_time := none }) ∧
     hash_rollup_config (withOpHardForks c { hf with fjord_time := some 0 }) =
       hash_rollup_config (withOpHardForks c { hf with fjord_time := none })) ∧
    (serializedConfig (withOpHardForks c { hf with granite_time := some 0 }) =
       serializedConfig (withOpHardForks c { hf with granite_time := none }) ∧
     hash_rollup_config (withOpHardForks c { hf with granite_time := some 0 }) =
       hash_rollup_config (withOpHardForks c { hf with granite_time := none })) ∧
    (serializedConfig (withOpHardForks c { hf with holocene_time := some 0 }) =
       serializedConfig (withOpHardForks c { hf with holocene_time := none }) ∧
     hash_rollup_config (withOpHardForks c { hf with holocene_time := some 0 }) =
       hash_rollup_config (withOpHardForks c { hf with holocene_time := none })) ∧
    (serializedConfig (withOpHardForks c { hf with isthmus_time := some 0 }) =
       serializedConfig (withOpHardForks c { hf with isthmus_time := none }) ∧
     hash_rollup_config (withOpHardForks c { hf with isthmus_time := some 0 }) =
       hash_rollup_config (withOpHardForks c { hf with isthmus_time := none })) ∧
    (serializedConfig (withCel2Time c (some 0)) =
       serializedConfig (withCel2Time c none) ∧
     hash_rollup_config (withCel2Time c (some 0)) =
       hash_rollup_config (withCel2Time c none)) :=
  ⟨⟨rfl, rfl⟩, ⟨rfl, rfl⟩, ⟨rfl, rfl⟩, ⟨rfl, rfl⟩, ⟨rfl, rfl⟩, ⟨rfl, rfl⟩,
   ⟨rfl, rfl⟩, ⟨rfl, rfl⟩, ⟨rfl, rfl⟩⟩

/-- Claim C6: the config-hashing operation is deterministic — hashing a
config twice yields identical digests, equal configs hash equal, and the
digest is a pure function of the canonical serialization. -/
theorem claim_C6 :
    (∀ c : CeloRollupConfig, hash_rollup_config c = hash_rollup_config c) ∧
    (∀ c₁ c₂ : CeloRollupConfig, c₁ = c₂ →
      hash_rollup_config c₁ = hash_rollup_config c₂) ∧
    (∀ c₁ c₂ : CeloRollupConfig, serializedConfig c₁ = serializedConfig c₂ →
      hash_rollup_config c₁ = hash_rollup_config c₂) :=
  ⟨fun _ => rfl, fun _ _ h => h ▸ rfl, fun _ _ h => by
    rw [hash_rollup_config, hash_rollup_config, h]⟩

/-- Witness for claim C6 at a concrete config. -/
theorem claim_C6_witness :
    hash_rollup_config exampleConfig = hash_rollup_config exampleConfig ∧
    hash_rollup_config exampleConfig = hash_rollup_config exampleConfig ∧
    hash_rollup_config exampleConfig = hash_rollup_config exampleConfig :=
  ⟨claim_C6.1 exampleConfig, claim_C6.2.1 exampleConfig exampleConfig rfl,
   claim_C6.2.2 exampleConfig exampleConfig rfl⟩

/-- Claim C7: when the optional `system_config` (or `alt_da`) sub-object is
empty, the canonical serialization still contains the corresponding key with
an explicit `null` as its value, and the key is present in every
serialization. -/
theorem claim_C7 (c : CeloRollupConfig) :
    (∃ pre post, serializedConfig (withSystemConfig c none) =
      pre ++ ("\"system_config\": null" ++ post)) ∧
    (∃ pre post, serializedConfig (withAltDA c none) =
      pre ++ ("\"alt_da\": null" ++ post)) ∧
    (∃ pre post, serializedConfig c = pre ++ ("\"system_config\": " ++ post)) ∧
    (∃ pre post, serializedConfig c = pre ++ ("\"alt_da\": " ++ post)) := by
  refine ⟨⟨configPartA (withSystemConfig c none),
      configPartB (withSystemConfig c none) ++
        (("\"alt_da\": " ++
          renderOptAltDA (withSystemConfig c none).op_rollup_config.alt_da_config) ++
          "\n\x7d"), ?_⟩,
    ⟨configPartA (withAltDA c none) ++
      ("\"system_config\": " ++
        renderOptSystemConfig (withAltDA c none).op_rollup_config.genesis.system_config) ++
      configPartB (withAltDA c none), "\n\x7d", ?_⟩,
    ⟨configPartA c, renderOptSystemConfig c.op_rollup_config.genesis.system_config ++
      (configPartB c ++
        (("\"alt_da\": " ++ renderOptAltDA c.op_rollup_config.alt_da_config) ++
          "\n\x7d")), ?_⟩,
    ⟨configPartA c ++
      ("\"system_config\": " ++
        renderOptSystemConfig c.op_rollup_config.genesis.system_config) ++
      configPartB c,
      renderOptAltDA c.op_rollup_config.alt_da_config ++ "\n\x7d", ?_⟩⟩
  · rw [show serializedConfig (withSystemConfig c none) =
        configPartA (withSystemConfig c none) ++ "\"system_config\": null" ++
        configPartB (withSystemConfig c none) ++
        ("\"alt_da\": " ++
          renderOptAltDA (withSystemConfig c none).op_rollup_config.alt_da_config) ++
        "\n\x7d" from by
      rw [← show ("\"system_config\": " ++ "null" : String) =
        "\"system_config\": null" from by decide]
      rfl]
    simp only [String.append_assoc]
  · rw [show serializedConfig (withAltDA c none) =
        configPartA (withAltDA c none) ++
        ("\"system_config\": " ++
          renderOptSystemConfig (withAltDA c none).op_rollup_config.genesis.system_config) ++
        configPartB (withAltDA c none) ++ "\"alt_da\": null" ++ "\n\x7d" from by
      rw [← show ("\"alt_da\": " ++ "null" : String) =
        "\"alt_da\": null" from by decide]
      rfl]
    simp only [String.append_assoc]
  · rw [serializedConfig]
    simp only [String.append_assoc]
  · rw [serializedConfig]
    simp only [String.append_assoc]

/-- Claim C9: the config digest is independent of the `cel2_time` field —
the serializer never reads the outer Celo hard-fork config, so two configs
differing only there hash identically; and the `BootInfo` conversion always
fixes `cel2_time` to `Some(0)`, with the resulting `rollupConfigHash`
depending only on the underlying OP rollup config. -/
theorem claim_C9 :
    (∀ (op : RollupConfig) (ophf : HardForkConfig) (t₁ t₂ : Option Nat),
      hash_rollup_config ⟨op, ⟨ophf, t₁⟩⟩ = hash_rollup_config ⟨op, ⟨ophf, t₂⟩⟩) ∧
    (∀ b : BootInfo, (celoConfigOfBootInfo b).hardforks.cel2_time = some 0) ∧
    (∀ b : BootInfo, (bootInfoStructOf b).rollupConfigHash =
      bytesToNatBE (hash_rollup_config (celoConfigOfBootInfo b))) :=
  ⟨fun _ _ _ _ => rfl, fun _ => rfl, fun _ => rfl⟩

/-- Claim C10: `hash_rollup_config` is total and always returns a 32-byte
digest — the canonical serialization is a total function of the config, and
the SHA-256 output always has exactly 32 bytes. -/
theorem claim_C10 (c : CeloRollupConfig) : (hash_rollup_config c).length = 32 :=
  sha256_length (strBytes (serializedConfig c))

end OPSuccinct
